import Mathlib

/-!
Shallow embedding of the offline-first expense sync engine:
the SQLite-backed local store (`expenses-sqlite.ts`, `db.ts`) and the
push/pull sync orchestrator (`sync.ts`).

Modelling conventions:
* SQL tables are Lean lists kept in rowid (insertion) order; `INSERT`
  appends, `DELETE ... WHERE p` filters, `UPDATE ... WHERE id = ?` maps a
  row-transformer over matching rows, `SELECT ... WHERE id = ?` is `find?`
  on the list, `ORDER BY c ASC` is a stable insertion sort on `c`.
* ISO-8601 timestamps are modelled as `Nat` clock readings; each operation
  receives the current clock value `now` explicitly (the code calls
  `new Date().toISOString()`).
* `parseFloat` on the decimal amount string is abstracted to the parsed
  numeric value (`Int`); no claim depends on amount arithmetic.
* JSON (de)serialisation of queue payloads is modelled by storing the
  payload value itself (`JSON.parse (JSON.stringify x) = x`).
* Network calls are modelled by a response oracle (`RemoteBehavior`,
  a pull response) passed to the orchestrator; the orchestrator also
  records a trace of the remote calls it makes.
-/

/-- Sync-queue operation kind (`"create" | "update" | "delete"`). -/
inductive SyncOp where
  | create
  | update
  | delete
deriving DecidableEq, Repr

/-- A locally stored expense row (`LocalExpense` = `Expense` + sync fields;
table `expenses` in `db.ts`). `synced` is the 0/1 integer column. -/
structure LocalExpense where
  id : String
  user_id : String
  amount : Int
  category : String
  date : Nat
  notes : Option String
  receipt_url : Option String
  created_at : Nat
  updated_at : Nat
  synced : Nat
  sync_error : Option String
  last_sync_at : Option Nat
deriving DecidableEq, Repr

/-- A remote expense record (`Expense` in `types/expense.ts`). -/
structure Expense where
  id : String
  user_id : String
  amount : Int
  category : String
  date : Nat
  notes : Option String
  receipt_url : Option String
  created_at : Nat
  updated_at : Nat
deriving DecidableEq, Repr

/-- Form data for a new expense (`ExpenseFormData`). -/
structure ExpenseFormData where
  amount : Int
  category : String
  date : Nat
  notes : String
  receipt_url : Option String
deriving DecidableEq, Repr

/-- `Partial<ExpenseFormData>`: each field present (`some`) or absent. -/
structure ExpenseUpdates where
  amount : Option Int
  category : Option String
  date : Option Nat
  notes : Option String
  receipt_url : Option String
deriving DecidableEq, Repr

/-- Payload snapshot stored in a queue entry's `data` column (the code
stringifies it to JSON; we store the value). -/
inductive QueuePayload where
  | expensePayload (e : LocalExpense)
  | updatesPayload (u : ExpenseUpdates)
deriving DecidableEq, Repr

/-- One row of the `sync_queue` table. `id` is the AUTOINCREMENT key. -/
structure SyncQueueEntry where
  id : Nat
  expense_id : String
  operation : SyncOp
  data : Option QueuePayload
  created_at : Nat
  retry_count : Nat
deriving DecidableEq, Repr

/-- The SQLite database state: both tables plus the AUTOINCREMENT counter
feeding `sync_queue.id`. Lists are in rowid order. -/
structure DBState where
  expenses : List LocalExpense
  sync_queue : List SyncQueueEntry
  nextQid : Nat
deriving DecidableEq, Repr

/-- The empty, freshly initialised database (`initDatabase`). -/
def emptyDB : DBState := { expenses := [], sync_queue := [], nextQid := 1 }

/-- `x || null` on an optional/empty string: empty string is falsy. -/
def strOrNone (s : String) : Option String :=
  if s = "" then none else some s

/-- `x || null` where `x` may be absent: absent and empty both map to null. -/
def optStrOrNone (s : Option String) : Option String :=
  match s with
  | none => none
  | some v => strOrNone v

/-- `SELECT * FROM expenses WHERE id = ?` (first match in rowid order). -/
def findExpense (s : DBState) (id : String) : Option LocalExpense :=
  s.expenses.find? (fun r => r.id == id)

/-- `UPDATE expenses SET ... WHERE id = ?`: apply `f` to matching rows. -/
def sqlUpdateById (id : String) (f : LocalExpense → LocalExpense)
    (l : List LocalExpense) : List LocalExpense :=
  l.map (fun r => if r.id == id then f r else r)

/-- `addToSyncQueue` (expenses-sqlite.ts): enqueue one pending operation,
silently dropping the attempt when an entry with the same
`(expense_id, operation)` pair already exists. -/
def addToSyncQueue (expenseId : String) (op : SyncOp) (d : Option QueuePayload)
    (now : Nat) (s : DBState) : DBState :=
  if s.sync_queue.any (fun e => e.expense_id == expenseId && e.operation == op) then
    s
  else
    { s with
      sync_queue := s.sync_queue ++
        [{ id := s.nextQid, expense_id := expenseId, operation := op,
           data := d, created_at := now, retry_count := 0 }],
      nextQid := s.nextQid + 1 }

/-- Result shape `{ data, error }` returned by the store operations. -/
structure ExpenseResult where
  state : DBState
  data : Option LocalExpense
  error : Option String
deriving DecidableEq, Repr

/-- `addExpense` (expenses-sqlite.ts): insert a new unsynced row with the
freshly generated id, then enqueue a `create` entry. A primary-key
violation on the INSERT is caught and reported as an error (the UUID is
fresh in practice, so this branch is never taken). -/
def addExpense (expense : ExpenseFormData) (userId : String) (id : String)
    (now : Nat) (s : DBState) : ExpenseResult :=
  let newExpense : LocalExpense :=
    { id := id, user_id := userId, amount := expense.amount,
      category := expense.category, date := expense.date,
      notes := strOrNone expense.notes,
      receipt_url := optStrOrNone expense.receipt_url,
      created_at := now, updated_at := now, synced := 0,
      sync_error := none, last_sync_at := none }
  if s.expenses.any (fun r => r.id == id) then
    { state := s, data := none, error := some "Failed to add expense" }
  else
    let s1 : DBState := { s with expenses := s.expenses ++ [newExpense] }
    let s2 := addToSyncQueue id .create (some (.expensePayload newExpense)) now s1
    { state := s2, data := some newExpense, error := none }

/-- Whether a partial update carries at least one substantial field
(the code's check `updateFields.length === 2`). -/
def hasUpdateFields (u : ExpenseUpdates) : Bool :=
  u.amount.isSome || u.category.isSome || u.date.isSome ||
    u.notes.isSome || u.receipt_url.isSome

/-- Apply the provided fields of a partial update to a row, stamping
`updated_at = now` and `synced = 0`. -/
def applyUpdates (u : ExpenseUpdates) (now : Nat) (r : LocalExpense) : LocalExpense :=
  { r with
    amount := u.amount.getD r.amount,
    category := u.category.getD r.category,
    date := u.date.getD r.date,
    notes := match u.notes with | none => r.notes | some v => strOrNone v,
    receipt_url := match u.receipt_url with | none => r.receipt_url | some v => strOrNone v,
    updated_at := now,
    synced := 0 }

/-- `updateExpense` (expenses-sqlite.ts): dynamic UPDATE of the provided
fields (no existence check on `id`), then enqueue an `update` entry and
re-read the row. With no substantial field it returns an error without
touching the database. -/
def updateExpense (id : String) (updates : ExpenseUpdates) (now : Nat)
    (s : DBState) : ExpenseResult :=
  if hasUpdateFields updates = false then
    { state := s, data := none, error := some "No fields to update" }
  else
    let s1 : DBState :=
      { s with expenses := sqlUpdateById id (applyUpdates updates now) s.expenses }
    let s2 := addToSyncQueue id .update (some (.updatesPayload updates)) now s1
    { state := s2, data := findExpense s2 id, error := none }

/-- First half of `deleteExpense`: enqueue the `delete` entry
("Add to sync queue before deleting"). -/
def deleteExpenseEnqueued (id : String) (now : Nat) (s : DBState) : DBState :=
  addToSyncQueue id .delete none now s

/-- `deleteExpense` (expenses-sqlite.ts): enqueue the `delete` entry first,
then `DELETE FROM expenses WHERE id = ?`. -/
def deleteExpense (id : String) (now : Nat) (s : DBState) : DBState :=
  let s1 := deleteExpenseEnqueued id now s
  { s1 with expenses := s1.expenses.filter (fun r => !(r.id == id)) }

/-- The row value written when a remote record is stored locally:
`synced = 1`, `last_sync_at = now`; the row id and `sync_error` are the
given ones. -/
def remoteAsLocal (e : Expense) (rowId : String) (syncErr : Option String)
    (now : Nat) : LocalExpense :=
  { id := rowId, user_id := e.user_id, amount := e.amount,
    category := e.category, date := e.date,
    notes := optStrOrNone e.notes,
    receipt_url := optStrOrNone e.receipt_url,
    created_at := e.created_at, updated_at := e.updated_at,
    synced := 1, sync_error := syncErr, last_sync_at := some now }

/-- `upsertExpenseFromRemote` (expenses-sqlite.ts): write the remote record
verbatim with `synced = 1` and `last_sync_at = now`; never touches the
sync queue. The UPDATE branch leaves `sync_error` alone (and, like
`UPDATE ... WHERE id = ?`, the row id); the INSERT branch leaves
`sync_error` NULL. -/
def upsertExpenseFromRemote (e : Expense) (now : Nat) (s : DBState) : DBState :=
  match findExpense s e.id with
  | some _ =>
    { s with expenses :=
        (sqlUpdateById e.id (fun r => remoteAsLocal e r.id r.sync_error now)
          s.expenses) }
  | none =>
    { s with expenses := s.expenses ++ [remoteAsLocal e e.id none now] }

/-- `markExpenseAsSynced`: set `synced = 1`, stamp `last_sync_at`, clear
`sync_error`. -/
def markExpenseAsSynced (id : String) (now : Nat) (s : DBState) : DBState :=
  { s with expenses := sqlUpdateById id (fun r =>
      { r with synced := 1, last_sync_at := some now, sync_error := none }) s.expenses }

/-- `markExpenseSyncFailed`: record the diagnostic on the row. -/
def markExpenseSyncFailed (id : String) (msg : String) (s : DBState) : DBState :=
  { s with expenses := sqlUpdateById id (fun r =>
      { r with sync_error := some msg }) s.expenses }

/-- `getUnsyncedExpenses`: rows of the owner with `synced = 0`. -/
def getUnsyncedExpenses (userId : String) (s : DBState) : List LocalExpense :=
  s.expenses.filter (fun r => r.user_id == userId && r.synced == 0)

/-- Comparison used by `SELECT * FROM sync_queue ORDER BY created_at ASC`. -/
def createdLE (a b : SyncQueueEntry) : Prop :=
  a.created_at ≤ b.created_at

instance : DecidableRel createdLE := fun a b => by
  unfold createdLE; infer_instance

instance : IsTotal SyncQueueEntry createdLE :=
  ⟨fun a b => Nat.le_total a.created_at b.created_at⟩

instance : IsTrans SyncQueueEntry createdLE :=
  ⟨fun _ _ _ h1 h2 => Nat.le_trans h1 h2⟩

/-- `getSyncQueue` (expenses-sqlite.ts): every queue row, ordered by
`created_at` ascending (stable w.r.t. rowid order). -/
def getSyncQueue (s : DBState) : List SyncQueueEntry :=
  s.sync_queue.insertionSort createdLE

/-- `removeFromSyncQueue`: `DELETE FROM sync_queue WHERE id = ?`. -/
def removeFromSyncQueue (queueId : Nat) (s : DBState) : DBState :=
  { s with sync_queue := s.sync_queue.filter (fun e => !(e.id == queueId)) }

/-- `incrementSyncRetryCount`: bump `retry_count` of one queue row. -/
def incrementSyncRetryCount (queueId : Nat) (s : DBState) : DBState :=
  { s with sync_queue := s.sync_queue.map (fun e =>
      if e.id == queueId then { e with retry_count := e.retry_count + 1 } else e) }

/-- `clearSyncQueue`: `DELETE FROM sync_queue`. -/
def clearSyncQueue (s : DBState) : DBState :=
  { s with sync_queue := [] }

/-- `clearFailedSyncItems`: delete rows with `retry_count >= maxRetries`. -/
def clearFailedSyncItems (maxRetries : Nat) (s : DBState) : DBState :=
  { s with sync_queue := s.sync_queue.filter (fun e => !(maxRetries ≤ e.retry_count)) }

/-- `removeDuplicateSyncQueueEntries`: for each `(expense_id, operation)`
group, keep only the entry with the lowest rowid. -/
def removeDuplicateSyncQueueEntries (s : DBState) : DBState :=
  { s with sync_queue := s.sync_queue.filter (fun e =>
      s.sync_queue.all (fun e2 =>
        !(e2.expense_id == e.expense_id && e2.operation == e.operation) || e.id ≤ e2.id)) }

/-- `deleteAllUserExpenses` (expenses-sqlite.ts):
`DELETE FROM expenses WHERE user_id = ?`. Nothing else is touched. -/
def deleteAllUserExpenses (userId : String) (s : DBState) : DBState :=
  { s with expenses := s.expenses.filter (fun r => !(r.user_id == userId)) }

/-! ## Sync orchestrator (`sync.ts`) -/

/-- A Supabase error object as classified by the sync code: an optional
`code` and a `message`. -/
structure RemoteError where
  code : Option String
  message : String
deriving DecidableEq, Repr

/-- Does the text start with the pattern? (pattern first). -/
def charsStartWith : List Char → List Char → Bool
  | [], _ => true
  | _ :: _, [] => false
  | a :: p, b :: l => a == b && charsStartWith p l

/-- Does the text contain the pattern as a contiguous run? -/
def charsContain (p : List Char) : List Char → Bool
  | [] => p.isEmpty
  | b :: l => charsStartWith p (b :: l) || charsContain p l

/-- `message.includes(pat)`. -/
def strIncludes (msg pat : String) : Bool :=
  charsContain pat.toList msg.toList

/-- The duplicate-key classification in `pushToRemote`'s create branch:
`error.code === "23505" || message includes "duplicate key" || message
includes "unique constraint"`. -/
def isDuplicateKeyError (e : RemoteError) : Bool :=
  e.code == some "23505" || strIncludes e.message "duplicate key" ||
    strIncludes e.message "unique constraint"

/-- The delete branch's "not found" classification. -/
def isNotFoundError (e : RemoteError) : Bool :=
  strIncludes e.message "not found" || strIncludes e.message "No rows"

/-- The delete branch's "invalid UUID" classification. -/
def isInvalidUUIDError (e : RemoteError) : Bool :=
  strIncludes e.message "invalid input syntax for type uuid"

/-- Response oracle for the remote adapter (`expenses-supabase.ts`):
`none` means the call succeeded, `some err` the error it returned. -/
structure RemoteBehavior where
  createResp : String → String → Option RemoteError
  updateResp : String → Option RemoteError
  deleteResp : String → Option RemoteError

/-- Trace element: one outbound remote call made during the push phase. -/
inductive RemoteCall where
  | createCall (userId id : String)
  | updateCall (id : String)
  | deleteCall (id : String)
deriving DecidableEq, Repr

/-- Accumulator threaded through the push loop: database state, success
count, error list, remote-call trace. -/
structure PushOutcome where
  state : DBState
  count : Nat
  errors : List String
  calls : List RemoteCall
deriving Repr

def SyncOp.toName : SyncOp → String
  | .create => "create"
  | .update => "update"
  | .delete => "delete"

/-- Shared failure path of the push loop's catch block: record the error
string, bump the entry's `retry_count`, stamp `sync_error` on the row. -/
def pushItemFail (item : SyncQueueEntry) (err : RemoteError)
    (s : DBState) (cnt : Nat) (errs : List String) (calls : List RemoteCall) :
    PushOutcome :=
  { state := markExpenseSyncFailed item.expense_id err.message
      (incrementSyncRetryCount item.id s),
    count := cnt,
    errors := errs ++ [item.operation.toName ++ " " ++ item.expense_id ++ ": " ++ err.message],
    calls := calls }

/-- Shared success path for create/update entries: mark the row synced,
remove the entry, count the push. -/
def pushItemOk (item : SyncQueueEntry) (now : Nat)
    (s : DBState) (cnt : Nat) (errs : List String) (calls : List RemoteCall) :
    PushOutcome :=
  { state := removeFromSyncQueue item.id (markExpenseAsSynced item.expense_id now s),
    count := cnt + 1,
    errors := errs,
    calls := calls }

/-- One iteration of `pushToRemote`'s loop over the drained queue. -/
def pushItemStep (remote : RemoteBehavior) (userId : String) (now : Nat)
    (acc : PushOutcome) (item : SyncQueueEntry) : PushOutcome :=
  if 3 ≤ item.retry_count then
    acc
  else
    match item.operation with
    | .create =>
      match findExpense acc.state item.expense_id with
      | none =>
        { acc with state := removeFromSyncQueue item.id acc.state }
      | some _ =>
        match remote.createResp userId item.expense_id with
        | none =>
          pushItemOk item now acc.state acc.count acc.errors
            (acc.calls ++ [.createCall userId item.expense_id])
        | some err =>
          if isDuplicateKeyError err then
            pushItemOk item now acc.state acc.count acc.errors
              (acc.calls ++ [.createCall userId item.expense_id])
          else
            pushItemFail item err acc.state acc.count acc.errors
              (acc.calls ++ [.createCall userId item.expense_id])
    | .update =>
      match findExpense acc.state item.expense_id with
      | none =>
        { acc with state := removeFromSyncQueue item.id acc.state }
      | some _ =>
        match remote.updateResp item.expense_id with
        | none =>
          pushItemOk item now acc.state acc.count acc.errors
            (acc.calls ++ [.updateCall item.expense_id])
        | some _ =>
          match remote.createResp userId item.expense_id with
          | none =>
            pushItemOk item now acc.state acc.count acc.errors
              (acc.calls ++ [.updateCall item.expense_id, .createCall userId item.expense_id])
          | some err2 =>
            pushItemFail item err2 acc.state acc.count acc.errors
              (acc.calls ++ [.updateCall item.expense_id, .createCall userId item.expense_id])
    | .delete =>
      match remote.deleteResp item.expense_id with
      | none =>
        { state := removeFromSyncQueue item.id acc.state, count := acc.count + 1,
          errors := acc.errors, calls := acc.calls ++ [.deleteCall item.expense_id] }
      | some err =>
        if isNotFoundError err || isInvalidUUIDError err then
          { state := removeFromSyncQueue item.id acc.state, count := acc.count + 1,
            errors := acc.errors, calls := acc.calls ++ [.deleteCall item.expense_id] }
        else
          pushItemFail item err acc.state acc.count acc.errors
            (acc.calls ++ [.deleteCall item.expense_id])

/-- `pushToRemote` (sync.ts): clean duplicate queue entries, drain the
queue snapshot, process each entry in order. -/
def pushToRemote (userId : String) (remote : RemoteBehavior) (now : Nat)
    (s : DBState) : PushOutcome :=
  let s1 := removeDuplicateSyncQueueEntries s
  let queue := getSyncQueue s1
  queue.foldl (pushItemStep remote userId now)
    { state := s1, count := 0, errors := [], calls := [] }

/-- Result of the pull phase. -/
structure PullOutcome where
  state : DBState
  count : Nat
  errors : List String
deriving Repr

/-- `pullFromRemote` (sync.ts): fetch the owner's full remote set and
upsert each record; a fetch error aborts the phase with one error
string. `pullResp` is the oracle for `supabaseExpenses.getExpenses`. -/
def pullFromRemote (pullResp : Except RemoteError (List Expense)) (now : Nat)
    (s : DBState) : PullOutcome :=
  match pullResp with
  | .error e =>
    { state := s, count := 0, errors := ["Pull failed: " ++ e.message] }
  | .ok remoteExpenses =>
    if remoteExpenses.isEmpty then
      { state := s, count := 0, errors := [] }
    else
      { state := remoteExpenses.foldl (fun st e => upsertExpenseFromRemote e now st) s,
        count := remoteExpenses.length,
        errors := [] }

/-- The aggregate result returned by `syncExpenses` (`SyncResult`). -/
structure SyncResult where
  success : Bool
  pushed : Nat
  pulled : Nat
  errors : List String
deriving DecidableEq, Repr

/-- State-and-result of a full sync cycle. -/
structure SyncOutcome where
  state : DBState
  result : SyncResult
deriving Repr

/-- `syncExpenses` (sync.ts): the full cycle. `online` is the value of the
`isOnline()` connectivity check; offline returns immediately with
`success: false` and the single error string `"Device is offline"`.
Otherwise push then pull, aggregating counts and errors. -/
def syncExpenses (userId : String) (online : Bool) (remote : RemoteBehavior)
    (pullResp : Except RemoteError (List Expense)) (now : Nat)
    (s : DBState) : SyncOutcome :=
  if online = false then
    { state := s,
      result := { success := false, pushed := 0, pulled := 0,
                  errors := ["Device is offline"] } }
  else
    let push := pushToRemote userId remote now s
    let pull := pullFromRemote pullResp now push.state
    let allErrors := push.errors ++ pull.errors
    { state := pull.state,
      result := { success := allErrors.isEmpty, pushed := push.count,
                  pulled := pull.count, errors := allErrors } }

/-! ## Local mutation sequences (reachability by the store's mutation API) -/

/-- One local mutation issued through the store's write API. -/
inductive LocalMutation where
  | add (form : ExpenseFormData) (userId id : String) (now : Nat)
  | update (id : String) (updates : ExpenseUpdates) (now : Nat)
  | delete (id : String) (now : Nat)
deriving Repr

/-- Apply one local mutation to the database state. -/
def applyMutation (m : LocalMutation) (s : DBState) : DBState :=
  match m with
  | .add form userId id now => (addExpense form userId id now s).state
  | .update id updates now => (updateExpense id updates now s).state
  | .delete id now => deleteExpense id now s

/-- Apply a sequence of local mutations in order. -/
def applyMutations (ops : List LocalMutation) (s : DBState) : DBState :=
  ops.foldl (fun st m => applyMutation m st) s

/-! ## Helper lemmas -/

/-- `addToSyncQueue` never touches the `expenses` table. -/
theorem addToSyncQueue_expenses (expenseId : String) (op : SyncOp)
    (d : Option QueuePayload) (now : Nat) (s : DBState) :
    (addToSyncQueue expenseId op d now s).expenses = s.expenses := by
  unfold addToSyncQueue
  split <;> rfl

/-- After `addToSyncQueue`, an entry with the requested key exists
(either the pre-existing one or the freshly appended one). -/
theorem addToSyncQueue_mem_key (expenseId : String) (op : SyncOp)
    (d : Option QueuePayload) (now : Nat) (s : DBState) :
    ∃ e ∈ (addToSyncQueue expenseId op d now s).sync_queue,
      e.expense_id = expenseId ∧ e.operation = op := by
  unfold addToSyncQueue
  split
  next h =>
    obtain ⟨e, he, hcond⟩ := List.any_eq_true.mp h
    refine ⟨e, he, ?_⟩
    simpa [Bool.and_eq_true, beq_iff_eq] using hcond
  next h =>
    exact ⟨_, List.mem_append_right _ (List.mem_singleton_self _), rfl, rfl⟩

/-- An enqueue attempt whose `(expense_id, operation)` key is already in
the queue is a no-op. -/
theorem addToSyncQueue_dup_noop (expenseId : String) (op : SyncOp)
    (d : Option QueuePayload) (now : Nat) (s : DBState)
    (h : ∃ e ∈ s.sync_queue, e.expense_id = expenseId ∧ e.operation = op) :
    addToSyncQueue expenseId op d now s = s := by
  obtain ⟨e, he, h1, h2⟩ := h
  unfold addToSyncQueue
  rw [if_pos]
  exact List.any_eq_true.mpr ⟨e, he, by simp [h1, h2]⟩

theorem find?_append_none {α : Type} {p : α → Bool} {l₁ l₂ : List α}
    (h : l₁.find? p = none) : (l₁ ++ l₂).find? p = l₂.find? p := by
  induction l₁ with
  | nil => rfl
  | cons a tl ih =>
    cases hp : p a with
    | true =>
      rw [List.find?_cons_of_pos _ hp] at h
      exact absurd h (by simp)
    | false =>
      rw [List.find?_cons_of_neg _ (by simp [hp])] at h
      rw [List.cons_append, List.find?_cons_of_neg _ (by simp [hp])]
      exact ih h

/-- A row-transformer that preserves `id` commutes with the point lookup:
looking up `id` after `UPDATE ... WHERE id = ?` returns the transformed
row. -/
theorem find?_sqlUpdateById (id : String) (f : LocalExpense → LocalExpense)
    (l : List LocalExpense) (hf : ∀ r, (f r).id = r.id) :
    (sqlUpdateById id f l).find? (fun r => r.id == id)
      = (l.find? (fun r => r.id == id)).map f := by
  induction l with
  | nil => rfl
  | cons a tl ih =>
    rcases ha : (a.id == id) with _ | _
    · rw [sqlUpdateById, List.map_cons, if_neg (by simp [ha]), List.find?_cons, ha,
        List.find?_cons, ha]
      exact ih
    · rw [sqlUpdateById, List.map_cons, if_pos (by simp [ha]), List.find?_cons,
        List.find?_cons, ha]
      have : ((f a).id == id) = true := by
        rw [hf a]; exact ha
      rw [this]
      rfl

/-- A lookup that misses leaves `UPDATE ... WHERE id = ?` with nothing to
change. -/
theorem sqlUpdateById_of_find?_none (id : String) (f : LocalExpense → LocalExpense)
    (l : List LocalExpense) (h : l.find? (fun r => r.id == id) = none) :
    sqlUpdateById id f l = l := by
  induction l with
  | nil => rfl
  | cons a tl ih =>
    rw [List.find?_cons] at h
    rcases ha : (a.id == id) with _ | _
    · simp only [ha] at h
      rw [sqlUpdateById, List.map_cons, if_neg (by simp [ha])]
      rw [sqlUpdateById] at ih
      rw [ih h]
    · simp [ha] at h

theorem markExpenseAsSynced_queue (id : String) (now : Nat) (s : DBState) :
    (markExpenseAsSynced id now s).sync_queue = s.sync_queue := rfl

theorem markExpenseSyncFailed_queue (id : String) (msg : String) (s : DBState) :
    (markExpenseSyncFailed id msg s).sync_queue = s.sync_queue := rfl

theorem mem_removeFromSyncQueue {e : SyncQueueEntry} {s : DBState} {qid : Nat}
    (he : e ∈ s.sync_queue) (hne : e.id ≠ qid) :
    e ∈ (removeFromSyncQueue qid s).sync_queue := by
  unfold removeFromSyncQueue
  exact List.mem_filter.mpr ⟨he, by simp [hne]⟩

theorem mem_incrementSyncRetryCount {e : SyncQueueEntry} {s : DBState} {qid : Nat}
    (he : e ∈ s.sync_queue) (hne : e.id ≠ qid) :
    e ∈ (incrementSyncRetryCount qid s).sync_queue := by
  unfold incrementSyncRetryCount
  exact List.mem_map.mpr ⟨e, he, if_neg (by simp [hne])⟩

/-- Two queue entries with distinct `(expense_id, operation)` keys. -/
def queueKeyNe (a b : SyncQueueEntry) : Prop :=
  ¬(a.expense_id = b.expense_id ∧ a.operation = b.operation)

instance (a b : SyncQueueEntry) : Decidable (queueKeyNe a b) := by
  unfold queueKeyNe; infer_instance

theorem queueKeyNe_symm : Symmetric queueKeyNe := by
  intro a b h hc
  exact h ⟨hc.1.symm, hc.2.symm⟩

/-- Two queue entries with distinct rowids. -/
def queueIdNe (a b : SyncQueueEntry) : Prop :=
  a.id ≠ b.id

instance (a b : SyncQueueEntry) : Decidable (queueIdNe a b) := by
  unfold queueIdNe; infer_instance

theorem queueIdNe_symm : Symmetric queueIdNe := fun _ _ h => h.symm

/-- On a queue with no duplicated `(expense_id, operation)` keys, the
duplicate-cleanup pass is the identity. -/
theorem removeDuplicateSyncQueueEntries_of_pairwise {s : DBState}
    (h : s.sync_queue.Pairwise queueKeyNe) :
    removeDuplicateSyncQueueEntries s = s := by
  unfold removeDuplicateSyncQueueEntries
  have hfilter : s.sync_queue.filter (fun e =>
      s.sync_queue.all (fun e2 =>
        !(e2.expense_id == e.expense_id && e2.operation == e.operation) || e.id ≤ e2.id))
      = s.sync_queue := by
    apply List.filter_eq_self.mpr
    intro e he
    apply List.all_eq_true.mpr
    intro e2 he2
    by_cases hk : e2.expense_id = e.expense_id ∧ e2.operation = e.operation
    · have : e2 = e := by
        by_contra hne
        exact h.forall queueKeyNe_symm he2 he hne ⟨hk.1, hk.2⟩
      simp [this]
    · simp only [Bool.or_eq_true, Bool.not_eq_eq_eq_not, Bool.not_true,
        Bool.and_eq_true, beq_iff_eq]
      left
      simpa using fun h1 h2 => hk ⟨h1, h2⟩
  rw [hfilter]

/-- Members of a queue with pairwise-distinct rowids that share an id are
equal. -/
theorem eq_of_mem_of_id_eq {l : List SyncQueueEntry} (hIds : l.Pairwise queueIdNe)
    {a b : SyncQueueEntry} (ha : a ∈ l) (hb : b ∈ l) (hid : a.id = b.id) : a = b := by
  by_contra hne
  exact hIds.forall queueIdNe_symm ha hb hne hid

/-- One push-loop iteration never removes, rewrites or re-counts a queue
entry other than the one named by the item it processes; an item at or
above the retry ceiling is skipped outright. -/
theorem mem_queue_pushItemStep (remote : RemoteBehavior) (userId : String)
    (now : Nat) (acc : PushOutcome) (item : SyncQueueEntry) {e : SyncQueueEntry}
    (he : e ∈ acc.state.sync_queue) (h : item.id = e.id → 3 ≤ item.retry_count) :
    e ∈ (pushItemStep remote userId now acc item).state.sync_queue := by
  by_cases h3 : 3 ≤ item.retry_count
  · unfold pushItemStep
    rw [if_pos h3]
    exact he
  · have hne : e.id ≠ item.id := fun hq => h3 (h hq.symm)
    unfold pushItemStep
    rw [if_neg h3]
    repeat' split
    all_goals
      first
        | exact he
        | exact mem_removeFromSyncQueue he hne
        | exact mem_incrementSyncRetryCount he hne

/-- Fold version of the previous lemma over a whole drained snapshot. -/
theorem mem_queue_pushFold (remote : RemoteBehavior) (userId : String)
    (now : Nat) (items : List SyncQueueEntry) (acc : PushOutcome)
    {e : SyncQueueEntry} (he : e ∈ acc.state.sync_queue)
    (h : ∀ item ∈ items, item.id = e.id → 3 ≤ item.retry_count) :
    e ∈ (items.foldl (pushItemStep remote userId now) acc).state.sync_queue := by
  induction items generalizing acc with
  | nil => exact he
  | cons it tl ih =>
    rw [List.foldl_cons]
    exact ih _ (mem_queue_pushItemStep remote userId now acc it he
      (h it (List.mem_cons_self it tl)))
      (fun i hi => h i (List.mem_cons_of_mem it hi))

/-- Enqueueing preserves pairwise-distinct `(expense_id, operation)` keys. -/
theorem addToSyncQueue_pairwiseKey (expenseId : String) (op : SyncOp)
    (d : Option QueuePayload) (now : Nat) (s : DBState)
    (h : s.sync_queue.Pairwise queueKeyNe) :
    (addToSyncQueue expenseId op d now s).sync_queue.Pairwise queueKeyNe := by
  unfold addToSyncQueue
  split
  next => exact h
  next hany =>
    apply List.pairwise_append.mpr
    refine ⟨h, List.pairwise_singleton _ _, ?_⟩
    intro a ha b hb
    rw [List.mem_singleton] at hb
    subst hb
    intro hc
    exact hany (List.any_eq_true.mpr ⟨a, ha, by simp [hc.1, hc.2]⟩)

/-- Every local write API call preserves pairwise-distinct queue keys. -/
theorem applyMutation_pairwiseKey (m : LocalMutation) (s : DBState)
    (h : s.sync_queue.Pairwise queueKeyNe) :
    (applyMutation m s).sync_queue.Pairwise queueKeyNe := by
  cases m with
  | add form userId id now =>
    show ((addExpense form userId id now s).state.sync_queue).Pairwise queueKeyNe
    unfold addExpense
    split
    next => exact h
    next => exact addToSyncQueue_pairwiseKey _ _ _ _ _ h
  | update id updates now =>
    show ((updateExpense id updates now s).state.sync_queue).Pairwise queueKeyNe
    unfold updateExpense
    split
    next => exact h
    next => exact addToSyncQueue_pairwiseKey _ _ _ _ _ h
  | delete id now =>
    exact addToSyncQueue_pairwiseKey _ _ _ _ _ h

theorem applyMutations_pairwiseKey (ops : List LocalMutation) (s : DBState)
    (h : s.sync_queue.Pairwise queueKeyNe) :
    (applyMutations ops s).sync_queue.Pairwise queueKeyNe := by
  induction ops generalizing s with
  | nil => exact h
  | cons m tl ih => exact ih _ (applyMutation_pairwiseKey m s h)

/-- The row value `addExpense` inserts. -/
def newLocalExpense (expense : ExpenseFormData) (userId : String) (id : String)
    (now : Nat) : LocalExpense :=
  { id := id, user_id := userId, amount := expense.amount,
    category := expense.category, date := expense.date,
    notes := strOrNone expense.notes,
    receipt_url := optStrOrNone expense.receipt_url,
    created_at := now, updated_at := now, synced := 0,
    sync_error := none, last_sync_at := none }

theorem addExpense_expenses (expense : ExpenseFormData) (userId id : String)
    (now : Nat) (s : DBState) :
    (addExpense expense userId id now s).state.expenses = s.expenses ∨
    (addExpense expense userId id now s).state.expenses
      = s.expenses ++ [newLocalExpense expense userId id now] := by
  unfold addExpense
  split
  next => exact Or.inl rfl
  next => exact Or.inr (addToSyncQueue_expenses _ _ _ _ _)

theorem updateExpense_expenses (id : String) (updates : ExpenseUpdates)
    (now : Nat) (s : DBState) :
    (updateExpense id updates now s).state.expenses = s.expenses ∨
    (updateExpense id updates now s).state.expenses
      = sqlUpdateById id (applyUpdates updates now) s.expenses := by
  unfold updateExpense
  split
  next => exact Or.inl rfl
  next => exact Or.inr (addToSyncQueue_expenses _ _ _ _ _)

theorem deleteExpense_expenses (id : String) (now : Nat) (s : DBState) :
    (deleteExpense id now s).expenses
      = s.expenses.filter (fun r => !(r.id == id)) := by
  show ((addToSyncQueue id .delete none now s).expenses).filter _ = _
  rw [addToSyncQueue_expenses]

/-- Every local write API call keeps all expense rows unsynced. -/
theorem applyMutation_unsynced (m : LocalMutation) (s : DBState)
    (h : ∀ r ∈ s.expenses, r.synced = 0) :
    ∀ r ∈ (applyMutation m s).expenses, r.synced = 0 := by
  cases m with
  | add form userId id now =>
    intro r hr
    have hr' : r ∈ (addExpense form userId id now s).state.expenses := hr
    rcases addExpense_expenses form userId id now s with hcase | hcase
    · rw [hcase] at hr'
      exact h r hr'
    · rw [hcase] at hr'
      rcases List.mem_append.mp hr' with hl | hr2
      · exact h r hl
      · rw [List.mem_singleton] at hr2
        subst hr2
        rfl
  | update id updates now =>
    intro r hr
    have hr' : r ∈ (updateExpense id updates now s).state.expenses := hr
    rcases updateExpense_expenses id updates now s with hcase | hcase
    · rw [hcase] at hr'
      exact h r hr'
    · rw [hcase] at hr'
      obtain ⟨x, hx, hxr⟩ := List.mem_map.mp hr'
      by_cases hid : (x.id == id) = true
      · rw [if_pos hid] at hxr
        subst hxr
        rfl
      · rw [if_neg hid] at hxr
        subst hxr
        exact h x hx
  | delete id now =>
    intro r hr
    have hr' : r ∈ (deleteExpense id now s).expenses := hr
    rw [deleteExpense_expenses] at hr'
    exact h r (List.mem_filter.mp hr').1

theorem applyMutations_unsynced (ops : List LocalMutation) (s : DBState)
    (h : ∀ r ∈ s.expenses, r.synced = 0) :
    ∀ r ∈ (applyMutations ops s).expenses, r.synced = 0 := by
  induction ops generalizing s with
  | nil => exact h
  | cons m tl ih => exact ih _ (applyMutation_unsynced m s h)

/-! ## Concrete fixtures used by witnesses and counterexamples -/

def form0 : ExpenseFormData :=
  { amount := 12, category := "Food", date := 0, notes := "", receipt_url := none }

def updC : ExpenseUpdates :=
  { amount := none, category := some "Groceries", date := none,
    notes := none, receipt_url := none }

/-- A remote that accepts everything. -/
def remoteOk : RemoteBehavior :=
  { createResp := fun _ _ => none, updateResp := fun _ => none,
    deleteResp := fun _ => none }

/-- The uniqueness-conflict error Postgres reports for a duplicate id. -/
def dupErr : RemoteError :=
  { code := some "23505", message := "duplicate key value violates unique constraint" }

def serverErr : RemoteError :=
  { code := none, message := "server error" }

/-- A remote where create hits the duplicate-id conflict and update fails. -/
def remoteDupAndFail : RemoteBehavior :=
  { createResp := fun _ _ => some dupErr, updateResp := fun _ => some serverErr,
    deleteResp := fun _ => none }

/-- State after creating expense "X" for owner "u" offline. -/
def dbX : DBState := (addExpense form0 "u" "X" 0 emptyDB).state

/-- State after additionally editing "X" offline. -/
def dbXU : DBState := (updateExpense "X" updC 1 dbX).state

/-- The remote copy of "X". -/
def eX : Expense :=
  { id := "X", user_id := "u", amount := 12, category := "Food", date := 0,
    notes := none, receipt_url := none, created_at := 0, updated_at := 1 }

/-- A queue entry whose expense row no longer exists, already at the retry
ceiling. -/
def dbGhost : DBState :=
  { expenses := [],
    sync_queue := [{ id := 1, expense_id := "g", operation := .create,
                     data := none, created_at := 0, retry_count := 3 }],
    nextQid := 2 }

/-- A queue holding one entry at the retry ceiling and one below it. -/
def dbQ2 : DBState :=
  { expenses := [],
    sync_queue := [{ id := 1, expense_id := "a", operation := .create,
                     data := none, created_at := 5, retry_count := 3 },
                   { id := 2, expense_id := "b", operation := .update,
                     data := none, created_at := 3, retry_count := 0 }],
    nextQid := 3 }

/-! ## Claim theorems -/

/-- C1 (amended): a full sync cycle run while the connectivity check
reports offline returns immediately with zero pushed, zero pulled and the
database (queue and expense rows) unchanged, but the result is marked
`success = false` and carries the error string "Device is offline" — the
offline case is reported through the error channel, not as a non-error
zero-work result. -/
theorem syncExpenses_offline_spec (userId : String) (remote : RemoteBehavior)
    (pullResp : Except RemoteError (List Expense)) (now : Nat) (s : DBState) :
    syncExpenses userId false remote pullResp now s =
      { state := s,
        result := { success := false, pushed := 0, pulled := 0,
                    errors := ["Device is offline"] } } := rfl

/-- C1 counterexample: at a concrete state, the offline cycle's result has
`success = false` and a non-empty error list, refuting "reported as a
zero-work non-error outcome rather than as an error". -/
theorem syncExpenses_offline_is_error :
    (syncExpenses "u" false remoteOk (Except.ok []) 0 dbX).result.success = false ∧
    (syncExpenses "u" false remoteOk (Except.ok []) 0 dbX).result.errors
      = ["Device is offline"] ∧
    (syncExpenses "u" false remoteOk (Except.ok []) 0 dbX).state = dbX :=
  ⟨rfl, rfl, rfl⟩

/-- C2 (amended): `updateExpense` on an id absent from the local expenses
table with a non-empty partial update does not fail: it reports no error
(`error = null`, with `data = null`), and it does enqueue an `update`
sync-queue entry for the unknown id. -/
theorem updateExpense_unknown_id_spec (s : DBState) (id : String)
    (updates : ExpenseUpdates) (now : Nat)
    (hf : hasUpdateFields updates = true) (hmiss : findExpense s id = none) :
    (updateExpense id updates now s).error = none ∧
    (updateExpense id updates now s).data = none ∧
    ∃ e ∈ (updateExpense id updates now s).state.sync_queue,
      e.expense_id = id ∧ e.operation = SyncOp.update := by
  have hf' : ¬(hasUpdateFields updates = false) := by simp [hf]
  have hmiss' : s.expenses.find? (fun r => r.id == id) = none := hmiss
  unfold updateExpense
  rw [if_neg hf']
  refine ⟨rfl, ?_, addToSyncQueue_mem_key _ _ _ _ _⟩
  show findExpense
    (addToSyncQueue id .update (some (.updatesPayload updates)) now
      { s with expenses := sqlUpdateById id (applyUpdates updates now) s.expenses }) id = none
  unfold findExpense
  rw [addToSyncQueue_expenses]
  show (sqlUpdateById id (applyUpdates updates now) s.expenses).find?
    (fun r => r.id == id) = none
  rw [sqlUpdateById_of_find?_none id _ s.expenses hmiss']
  exact hmiss'

/-- C2 witness: the amended behaviour at a concrete input. -/
theorem updateExpense_unknown_id_witness :
    (updateExpense "x" updC 0 emptyDB).error = none ∧
    (updateExpense "x" updC 0 emptyDB).data = none ∧
    ∃ e ∈ (updateExpense "x" updC 0 emptyDB).state.sync_queue,
      e.expense_id = "x" ∧ e.operation = SyncOp.update :=
  updateExpense_unknown_id_spec emptyDB "x" updC 0 rfl rfl

/-- C2 counterexample: updating the unknown id "x" on the empty database
returns no error and leaves an `update` queue entry for "x", refuting both
the claimed `NotFoundError` and the claimed absence of an enqueued entry. -/
theorem updateExpense_unknown_id_counterexample :
    (updateExpense "x" updC 0 emptyDB).error = none ∧
    (updateExpense "x" updC 0 emptyDB).state.sync_queue =
      [{ id := 1, expense_id := "x", operation := SyncOp.update,
         data := some (.updatesPayload updC), created_at := 0, retry_count := 0 }] :=
  ⟨rfl, rfl⟩

/-- C4 (confirmed): `upsertExpenseFromRemote` leaves the sync queue (and
the queue-id counter) exactly as it was — so no new queue entry for the
record can appear — and stores the remote record's fields with
`synced = 1` and `last_sync_at` stamped to the current clock. -/
theorem upsertExpenseFromRemote_spec (e : Expense) (now : Nat) (s : DBState) :
    (upsertExpenseFromRemote e now s).sync_queue = s.sync_queue ∧
    (upsertExpenseFromRemote e now s).nextQid = s.nextQid ∧
    ∃ r, findExpense (upsertExpenseFromRemote e now s) e.id = some r ∧
      r.synced = 1 ∧ r.last_sync_at = some now ∧ r.user_id = e.user_id ∧
      r.amount = e.amount ∧ r.category = e.category ∧ r.date = e.date ∧
      r.created_at = e.created_at ∧ r.updated_at = e.updated_at := by
  unfold upsertExpenseFromRemote
  cases hfind : findExpense s e.id with
  | some r0 =>
    refine ⟨rfl, rfl, ?_⟩
    have hm : s.expenses.find? (fun r => r.id == e.id) = some r0 := hfind
    have hsql := find?_sqlUpdateById e.id
      (fun r => remoteAsLocal e r.id r.sync_error now) s.expenses (fun r => rfl)
    rw [hm] at hsql
    exact ⟨remoteAsLocal e r0.id r0.sync_error now, hsql,
      rfl, rfl, rfl, rfl, rfl, rfl, rfl, rfl⟩
  | none =>
    refine ⟨rfl, rfl, ?_⟩
    have hm : s.expenses.find? (fun r => r.id == e.id) = none := hfind
    have hfound : (s.expenses ++ [remoteAsLocal e e.id none now]).find?
        (fun r => r.id == e.id) = some (remoteAsLocal e e.id none now) := by
      rw [find?_append_none hm]
      exact List.find?_cons_of_pos _ (by simp [remoteAsLocal])
    exact ⟨remoteAsLocal e e.id none now, hfound,
      rfl, rfl, rfl, rfl, rfl, rfl, rfl, rfl⟩

/-- C6 (confirmed): `deleteExpense` is literally the composition "enqueue
the delete entry, then remove the row": after the enqueue step the row set
is still untouched and a `delete` queue entry for the id exists, the final
state is exactly the enqueue-step state with the row filtered out, and the
delete entry is still present at the end — so at no intermediate point is
the row gone without a durable delete entry. -/
theorem deleteExpense_enqueue_before_remove (id : String) (now : Nat) (s : DBState) :
    (deleteExpenseEnqueued id now s).expenses = s.expenses ∧
    (∃ e ∈ (deleteExpenseEnqueued id now s).sync_queue,
      e.expense_id = id ∧ e.operation = SyncOp.delete) ∧
    deleteExpense id now s =
      { deleteExpenseEnqueued id now s with
        expenses := (deleteExpenseEnqueued id now s).expenses.filter
          (fun r => !(r.id == id)) } ∧
    ∃ e ∈ (deleteExpense id now s).sync_queue,
      e.expense_id = id ∧ e.operation = SyncOp.delete :=
  ⟨addToSyncQueue_expenses _ _ _ _ _, addToSyncQueue_mem_key _ _ _ _ _,
    rfl, addToSyncQueue_mem_key _ _ _ _ _⟩

/-- C9 (amended): `deleteAllUserExpenses` removes exactly the owner's
expense rows — afterwards no row of the owner remains and every other row
survives — but it does not touch the sync queue at all: queue entries
referencing the owner's records remain until cleared by a queue
maintenance operation. -/
theorem deleteAllUserExpenses_spec (userId : String) (s : DBState) :
    (∀ r ∈ (deleteAllUserExpenses userId s).expenses, r.user_id ≠ userId) ∧
    (∀ r ∈ s.expenses, r.user_id ≠ userId →
      r ∈ (deleteAllUserExpenses userId s).expenses) ∧
    (deleteAllUserExpenses userId s).sync_queue = s.sync_queue ∧
    (deleteAllUserExpenses userId s).nextQid = s.nextQid := by
  refine ⟨?_, ?_, rfl, rfl⟩
  · intro r hr
    have h := (List.mem_filter.mp hr).2
    simpa using h
  · intro r hr hne
    exact List.mem_filter.mpr ⟨hr, by simpa using hne⟩

/-- C9 witness: the amended behaviour instantiated at owner "u" and the
one-expense state `dbX`. -/
theorem deleteAllUserExpenses_witness :
    (∀ r ∈ (deleteAllUserExpenses "u" dbX).expenses, r.user_id ≠ "u") ∧
    (∀ r ∈ dbX.expenses, r.user_id ≠ "u" →
      r ∈ (deleteAllUserExpenses "u" dbX).expenses) ∧
    (deleteAllUserExpenses "u" dbX).sync_queue = dbX.sync_queue ∧
    (deleteAllUserExpenses "u" dbX).nextQid = dbX.nextQid :=
  deleteAllUserExpenses_spec "u" dbX

/-- C9 counterexample: in `dbX`, record "X" belongs to owner "u"; the bulk
purge removes the expense row but the `create` queue entry referencing
"X" survives, refuting "no sync queue entry referencing any of that
owner's records remains". -/
theorem deleteAllUserExpenses_leaves_queue :
    (∃ r ∈ dbX.expenses, r.id = "X" ∧ r.user_id = "u") ∧
    (deleteAllUserExpenses "u" dbX).expenses = [] ∧
    ∃ e ∈ (deleteAllUserExpenses "u" dbX).sync_queue,
      e.expense_id = "X" ∧ e.operation = SyncOp.create := by
  decide

/-- C5 (confirmed): starting from the empty database, any sequence of
local mutations (insert, update, delete — the only writers that enqueue)
leaves the sync queue with pairwise-distinct `(record_id, operation)`
keys, i.e. at most one entry per pair; and an enqueue attempt whose pair
is already present is a no-op that leaves the whole state (hence the
existing entry) unchanged. -/
theorem syncQueue_dedup_invariant :
    (∀ ops : List LocalMutation,
      (applyMutations ops emptyDB).sync_queue.Pairwise queueKeyNe) ∧
    (∀ (s : DBState) (expenseId : String) (op : SyncOp)
      (d : Option QueuePayload) (now : Nat),
      (∃ e ∈ s.sync_queue, e.expense_id = expenseId ∧ e.operation = op) →
      addToSyncQueue expenseId op d now s = s) := by
  constructor
  · intro ops
    exact applyMutations_pairwiseKey ops emptyDB (List.Pairwise.nil)
  · intro s expenseId op d now h
    exact addToSyncQueue_dup_noop expenseId op d now s h

/-- C5 witness: a create-then-edit-then-edit run on one record keeps the
queue deduplicated, and a duplicate `update` enqueue on the resulting
state is dropped. -/
theorem syncQueue_dedup_witness :
    (applyMutations
      [LocalMutation.add form0 "u" "X" 0,
       LocalMutation.update "X" updC 1,
       LocalMutation.update "X" updC 2] emptyDB).sync_queue.Pairwise queueKeyNe ∧
    addToSyncQueue "X" SyncOp.update none 7 dbXU = dbXU :=
  ⟨syncQueue_dedup_invariant.1
      [LocalMutation.add form0 "u" "X" 0,
       LocalMutation.update "X" updC 1,
       LocalMutation.update "X" updC 2],
    syncQueue_dedup_invariant.2 dbXU "X" SyncOp.update none 7
      ⟨{ id := 2, expense_id := "X", operation := SyncOp.update,
         data := some (.updatesPayload updC), created_at := 1, retry_count := 0 },
        by decide, rfl, rfl⟩⟩

/-- C3 (amended): the drain `getSyncQueue` returns every queue row —
including rows at or above the retry ceiling — ordered by `created_at`
ascending (a permutation of the stored queue); the ceiling is enforced
not by the drain but by the push loop, which skips entries with
`retry_count ≥ 3` without deleting them, so such entries are still in the
queue after a whole push phase (until explicitly purged). Stated on
queues with distinct keys and distinct rowids, which the store maintains. -/
theorem getSyncQueue_drain_spec (s : DBState) (userId : String)
    (remote : RemoteBehavior) (now : Nat)
    (hKeys : s.sync_queue.Pairwise queueKeyNe)
    (hIds : s.sync_queue.Pairwise queueIdNe) :
    (getSyncQueue s).Perm s.sync_queue ∧
    (getSyncQueue s).Sorted createdLE ∧
    ∀ e ∈ s.sync_queue, 3 ≤ e.retry_count →
      e ∈ (pushToRemote userId remote now s).state.sync_queue := by
  refine ⟨List.perm_insertionSort createdLE s.sync_queue,
    List.sorted_insertionSort createdLE s.sync_queue, ?_⟩
  intro e he he3
  unfold pushToRemote
  rw [removeDuplicateSyncQueueEntries_of_pairwise hKeys]
  apply mem_queue_pushFold
  · exact he
  · intro item hitem hid
    have hitem' : item ∈ s.sync_queue :=
      (List.perm_insertionSort createdLE s.sync_queue).subset hitem
    have : item = e := eq_of_mem_of_id_eq hIds hitem' he hid
    rw [this]
    exact he3

/-- C3 witness: on a two-entry queue (one at the ceiling, one below, with
`created_at` order opposite to rowid order) the drained list is a sorted
permutation and the at-ceiling entry survives a full push phase. -/
theorem getSyncQueue_drain_witness :
    (getSyncQueue dbQ2).Perm dbQ2.sync_queue ∧
    (getSyncQueue dbQ2).Sorted createdLE ∧
    ∀ e ∈ dbQ2.sync_queue, 3 ≤ e.retry_count →
      e ∈ (pushToRemote "u" remoteOk 0 dbQ2).state.sync_queue :=
  getSyncQueue_drain_spec dbQ2 "u" remoteOk 0 (by decide) (by decide)

/-- C3 counterexample: `getSyncQueue` on a queue whose single entry has
`retry_count = 3` returns that entry, refuting the claim that the drain
excludes entries at or above the retry ceiling. -/
theorem getSyncQueue_no_retry_exclusion :
    getSyncQueue dbGhost
      = [{ id := 1, expense_id := "g", operation := SyncOp.create,
           data := none, created_at := 0, retry_count := 3 }] := by
  decide

/-- C7 (confirmed): when a create entry below the retry ceiling whose row
exists locally is pushed and the remote reports a uniqueness conflict
(classified by `isDuplicateKeyError`), the outcome is success-equivalent:
the push count is incremented, the error list is untouched, the entry is
removed from the queue with every other entry left exactly as it was (so
no `retry_count` changes), and the row is marked synced with
`last_sync_at` stamped and `sync_error` cleared. -/
theorem pushCreate_duplicate_success (remote : RemoteBehavior) (userId : String)
    (now : Nat) (s : DBState) (cnt : Nat) (errs : List String)
    (calls : List RemoteCall) (item : SyncQueueEntry) (err : RemoteError)
    (exp : LocalExpense)
    (hop : item.operation = SyncOp.create) (hretry : item.retry_count < 3)
    (hfind : findExpense s item.expense_id = some exp)
    (hresp : remote.createResp userId item.expense_id = some err)
    (hdup : isDuplicateKeyError err = true) :
    (pushItemStep remote userId now ⟨s, cnt, errs, calls⟩ item).count = cnt + 1 ∧
    (pushItemStep remote userId now ⟨s, cnt, errs, calls⟩ item).errors = errs ∧
    (pushItemStep remote userId now ⟨s, cnt, errs, calls⟩ item).state.sync_queue
      = s.sync_queue.filter (fun e => !(e.id == item.id)) ∧
    ∃ r, findExpense (pushItemStep remote userId now ⟨s, cnt, errs, calls⟩ item).state
        item.expense_id = some r ∧
      r.synced = 1 ∧ r.last_sync_at = some now ∧ r.sync_error = none := by
  have hr3 : ¬ 3 ≤ item.retry_count := Nat.not_le.mpr hretry
  have hstep : pushItemStep remote userId now ⟨s, cnt, errs, calls⟩ item
      = pushItemOk item now s cnt errs
          (calls ++ [.createCall userId item.expense_id]) := by
    simp only [pushItemStep, hr3, if_false, hop, hfind, hresp, hdup, if_true]
  rw [hstep]
  refine ⟨rfl, rfl, rfl, ?_⟩
  have hm : s.expenses.find? (fun r => r.id == item.expense_id) = some exp := hfind
  have hsql := find?_sqlUpdateById item.expense_id
    (fun r => { r with synced := 1, last_sync_at := some now, sync_error := none })
    s.expenses (fun r => rfl)
  rw [hm] at hsql
  exact ⟨_, hsql, rfl, rfl, rfl⟩

/-- C7 witness: pushing the create entry for "X" against a remote that
reports the Postgres duplicate-key conflict counts as one success with no
error and removes the entry. -/
theorem pushCreate_duplicate_success_witness :
    (pushItemStep remoteDupAndFail "u" 5 ⟨dbX, 0, [], []⟩
      { id := 1, expense_id := "X", operation := SyncOp.create, data := none,
        created_at := 0, retry_count := 0 }).count = 0 + 1 ∧
    (pushItemStep remoteDupAndFail "u" 5 ⟨dbX, 0, [], []⟩
      { id := 1, expense_id := "X", operation := SyncOp.create, data := none,
        created_at := 0, retry_count := 0 }).errors = [] ∧
    (pushItemStep remoteDupAndFail "u" 5 ⟨dbX, 0, [], []⟩
      { id := 1, expense_id := "X", operation := SyncOp.create, data := none,
        created_at := 0, retry_count := 0 }).state.sync_queue
      = dbX.sync_queue.filter (fun e => !(e.id == 1)) ∧
    ∃ r, findExpense (pushItemStep remoteDupAndFail "u" 5 ⟨dbX, 0, [], []⟩
        { id := 1, expense_id := "X", operation := SyncOp.create, data := none,
          created_at := 0, retry_count := 0 }).state "X" = some r ∧
      r.synced = 1 ∧ r.last_sync_at = some 5 ∧ r.sync_error = none :=
  pushCreate_duplicate_success remoteDupAndFail "u" 5 dbX 0 [] []
    { id := 1, expense_id := "X", operation := SyncOp.create, data := none,
      created_at := 0, retry_count := 0 }
    dupErr (newLocalExpense form0 "u" "X" 0) rfl (by decide) rfl rfl rfl

/-- C10 (amended): a create or update entry below the retry ceiling whose
expense row is gone from the local table is dropped from the queue by the
push loop with no remote call recorded, no count, no error and no change
to any other entry or to the expense rows; an entry at or above the
ceiling is skipped instead and stays queued. -/
theorem pushMissing_discard (remote : RemoteBehavior) (userId : String)
    (now : Nat) (s : DBState) (cnt : Nat) (errs : List String)
    (calls : List RemoteCall) (item : SyncQueueEntry)
    (hop : item.operation = SyncOp.create ∨ item.operation = SyncOp.update)
    (hretry : item.retry_count < 3)
    (hfind : findExpense s item.expense_id = none) :
    (pushItemStep remote userId now ⟨s, cnt, errs, calls⟩ item).state.sync_queue
      = s.sync_queue.filter (fun e => !(e.id == item.id)) ∧
    (pushItemStep remote userId now ⟨s, cnt, errs, calls⟩ item).state.expenses
      = s.expenses ∧
    (pushItemStep remote userId now ⟨s, cnt, errs, calls⟩ item).count = cnt ∧
    (pushItemStep remote userId now ⟨s, cnt, errs, calls⟩ item).errors = errs ∧
    (pushItemStep remote userId now ⟨s, cnt, errs, calls⟩ item).calls = calls := by
  have hr3 : ¬ 3 ≤ item.retry_count := Nat.not_le.mpr hretry
  have hstep : pushItemStep remote userId now ⟨s, cnt, errs, calls⟩ item
      = { state := removeFromSyncQueue item.id s, count := cnt,
          errors := errs, calls := calls } := by
    rcases hop with hop | hop <;>
      simp only [pushItemStep, hr3, if_false, hop, hfind]
  rw [hstep]
  exact ⟨rfl, rfl, rfl, rfl, rfl⟩

/-- C10 witness: the discard behaviour at a concrete orphaned entry. -/
theorem pushMissing_discard_witness :
    (pushItemStep remoteOk "u" 0 ⟨emptyDB, 0, [], []⟩
      { id := 4, expense_id := "gone", operation := SyncOp.update, data := none,
        created_at := 0, retry_count := 1 }).state.sync_queue
      = emptyDB.sync_queue.filter (fun e => !(e.id == 4)) ∧
    (pushItemStep remoteOk "u" 0 ⟨emptyDB, 0, [], []⟩
      { id := 4, expense_id := "gone", operation := SyncOp.update, data := none,
        created_at := 0, retry_count := 1 }).state.expenses = emptyDB.expenses ∧
    (pushItemStep remoteOk "u" 0 ⟨emptyDB, 0, [], []⟩
      { id := 4, expense_id := "gone", operation := SyncOp.update, data := none,
        created_at := 0, retry_count := 1 }).count = 0 ∧
    (pushItemStep remoteOk "u" 0 ⟨emptyDB, 0, [], []⟩
      { id := 4, expense_id := "gone", operation := SyncOp.update, data := none,
        created_at := 0, retry_count := 1 }).errors = [] ∧
    (pushItemStep remoteOk "u" 0 ⟨emptyDB, 0, [], []⟩
      { id := 4, expense_id := "gone", operation := SyncOp.update, data := none,
        created_at := 0, retry_count := 1 }).calls = [] :=
  pushMissing_discard remoteOk "u" 0 emptyDB 0 [] []
    { id := 4, expense_id := "gone", operation := SyncOp.update, data := none,
      created_at := 0, retry_count := 1 }
    (Or.inr rfl) (by decide) rfl

/-- C10 counterexample: a create entry whose expense row is gone but whose
`retry_count` is at the ceiling is NOT removed by the push phase — it is
skipped and survives — refuting the claim for such entries. -/
theorem pushMissing_at_ceiling_not_removed :
    (pushToRemote "u" remoteOk 0 dbGhost).state.sync_queue
      = [{ id := 1, expense_id := "g", operation := SyncOp.create,
           data := none, created_at := 0, retry_count := 3 }] := by
  decide

/-- C8 (amended): in every state reachable from the empty database by the
local mutation operations alone (insert, update, delete), every expense
row is unsynced, so the claimed invariant holds there: no synced record
has a queue entry referencing it, and every record referenced by a queue
entry is unsynced or absent. The invariant does NOT survive the sync
cycle itself: a pull overwrite or a partially failing push can leave a
synced record with a pending queue entry (see the counterexample). -/
theorem sync_state_queue_invariant_local (ops : List LocalMutation) :
    (∀ r ∈ (applyMutations ops emptyDB).expenses, r.synced = 0) ∧
    (∀ r ∈ (applyMutations ops emptyDB).expenses, r.synced = 1 →
      ∀ e ∈ (applyMutations ops emptyDB).sync_queue, e.expense_id ≠ r.id) ∧
    (∀ e ∈ (applyMutations ops emptyDB).sync_queue,
      ∀ r ∈ (applyMutations ops emptyDB).expenses,
        r.id = e.expense_id → r.synced = 0) := by
  have h0 := applyMutations_unsynced ops emptyDB (by intro r hr; cases hr)
  refine ⟨h0, ?_, ?_⟩
  · intro r hr h1 e he
    exact absurd ((h0 r hr).symm.trans h1) (by decide)
  · intro e he r hr hid
    exact h0 r hr

/-- C8 witness: the invariant instantiated on the create-then-edit run. -/
theorem sync_state_queue_invariant_witness :
    (∀ r ∈ (applyMutations [LocalMutation.add form0 "u" "X" 0,
        LocalMutation.update "X" updC 1] emptyDB).expenses, r.synced = 0) ∧
    (∀ r ∈ (applyMutations [LocalMutation.add form0 "u" "X" 0,
        LocalMutation.update "X" updC 1] emptyDB).expenses, r.synced = 1 →
      ∀ e ∈ (applyMutations [LocalMutation.add form0 "u" "X" 0,
        LocalMutation.update "X" updC 1] emptyDB).sync_queue, e.expense_id ≠ r.id) ∧
    (∀ e ∈ (applyMutations [LocalMutation.add form0 "u" "X" 0,
        LocalMutation.update "X" updC 1] emptyDB).sync_queue,
      ∀ r ∈ (applyMutations [LocalMutation.add form0 "u" "X" 0,
        LocalMutation.update "X" updC 1] emptyDB).expenses,
        r.id = e.expense_id → r.synced = 0) :=
  sync_state_queue_invariant_local
    [LocalMutation.add form0 "u" "X" 0, LocalMutation.update "X" updC 1]

/-- C8 counterexample: two states reachable by the claim's own operations
violate the invariant. (a) Create "X" locally, then pull the remote copy:
the row is synced yet the `create` entry still pends. (b) Create and edit
"X", then run a push where the create hits the duplicate-id conflict
(success) and the update fails: the row ends synced while the `update`
entry pends with `retry_count = 1`. -/
theorem sync_state_queue_invariant_counterexample :
    (∃ r ∈ (upsertExpenseFromRemote eX 1 dbX).expenses,
      r.id = "X" ∧ r.synced = 1) ∧
    (∃ e ∈ (upsertExpenseFromRemote eX 1 dbX).sync_queue,
      e.expense_id = "X" ∧ e.operation = SyncOp.create ∧ e.retry_count = 0) ∧
    (∃ r ∈ (pushToRemote "u" remoteDupAndFail 2 dbXU).state.expenses,
      r.id = "X" ∧ r.synced = 1) ∧
    (∃ e ∈ (pushToRemote "u" remoteDupAndFail 2 dbXU).state.sync_queue,
      e.expense_id = "X" ∧ e.operation = SyncOp.update ∧ e.retry_count = 1) := by
  decide
